import Mathlib

/-!
Verification development for the TREATZ round & bet settlement engine
(src/config.py, src/db.py, src/main.py).

Shallow embedding notes:
* Machine integers of the source are Python arbitrary-precision ints; token
  amounts are non-negative, embedded as Nat; the configured ticket price,
  which an operator could set negative, is embedded as Int where relevant.
* HMAC-SHA256 (main.py `_hmac`, interpreted big-endian as in
  `int.from_bytes(..., "big")`) and SHA-256 (`_hash`) are external crypto
  primitives from Python's stdlib; definitions are parametric in them
  (`hmacInt : String -> String -> Nat`, `hashFn : String -> String`).
  The claims verified here concern only how their outputs are used.
* Database effects become explicit state passing.  SQLite runs with
  PRAGMA foreign_keys=ON (db.py) and a UNIQUE index on entries(tx_sig)
  (db.py line 91); a transaction that hits a constraint is rolled back,
  embedded as `Except String` where `.error` means "no state change".
* Timestamps (`created_at`, `settled_at`, `opens_at`, `closes_at`) are
  wall-clock strings irrelevant to every claim and are omitted from the
  embedded records.
-/

namespace Treatz

/-! ### Configuration constants (src/config.py, src/main.py lines 87-91) -/

/-- config.py: TOKEN_DECIMALS default. -/
def TOKEN_DECIMALS : Nat := 6

/-- config.py: WIN_AMOUNT (coinflip multiplier) default. -/
def WIN_AMOUNT : Nat := 2

/-- main.py line 87: `SPLT_WIN = int(getattr(settings, "SPLT_WINNER", 80))`;
the Settings class has no SPLT_WINNER field, so the getattr default applies. -/
def SPLT_WIN : Nat := 80

/-- main.py line 88: dev split percentage (getattr default 10). -/
def SPLT_DEV : Nat := 10

/-- main.py line 89: burn split percentage (getattr default 10). -/
def SPLT_BURN : Nat := 10

/-- config.py lines 136-144: module-level TICKET_PRICE normalization.
`if settings.TICKET_PRICE and int(settings.TICKET_PRICE) < (10 ** dec):
settings.TICKET_PRICE = int(settings.TICKET_PRICE) * (10 ** dec)`.
Python truthiness of an int is `!= 0`. -/
def normalizeTicketPrice (tp : Int) (dec : Nat) : Int :=
  if tp ≠ 0 ∧ tp < (10 : Int) ^ dec then tp * (10 : Int) ^ dec else tp

/-- Python str.upper for the ASCII status strings this code stores
("PENDING"/"SETTLED").  Defined by mapping Char.toUpper over the character
data so that it evaluates inside the kernel. -/
def upperAscii (s : String) : String := String.mk (s.data.map Char.toUpper)

/-! ### Bets table row + per-bet KV entries (db.py `bets`, main.py webhook) -/

/-- One row of the `bets` table together with the per-bet KV keys the
webhook reads and writes (`bet:<id>:payout_sig`, `bet:<id>:payout_error`,
`bet:<id>:short_deposit`, `bet:<id>:server_seed`).  `settled_at` and
`created_at` are omitted (wall-clock strings). -/
structure BetState where
  wager : Nat
  clientSeed : String
  status : String
  user : Option String
  result : Option String
  win : Option Bool
  serverSeedReveal : Option String
  txSig : Option String
  payoutSig : Option String
  payoutError : Option String
  shortDeposit : Option String
  serverSeed : Option String
  deriving Repr, DecidableEq

/-- main.py lines 1151-1210, the `BET:` branch of `helius_webhook`, for an
event whose memo matched the bet and whose destination matched the game
vault.  Arguments: `hmacInt` embeds `int.from_bytes(_hmac(secret, msg), "big")`;
`winMult` is `settings.WIN_AMOUNT`; `payRes` is the outcome of the external
`pay_coinflip_winner` call (`.ok sig` success, `.error e` exception);
`amt`/`txSig`/`sender`/`choice` come from the event.  Returns the updated
state and `some payoutAmount` when a payout call was made. -/
def processWager (hmacInt : String → String → Nat) (winMult : Nat)
    (payRes : Except String String)
    (amt : Nat) (txSig sender choice : String)
    (s : BetState) : BetState × Option Nat :=
  -- line 1169: `if prev_status == "SETTLED" and existing_payout: continue`
  if upperAscii s.status = "SETTLED" ∧ s.payoutSig.isSome then (s, none)
  -- line 1173: short-deposit guard `if amt < wager`
  else if amt < s.wager then
    ({ s with shortDeposit := some (toString amt) }, none)
  else
    match s.serverSeed with
    -- lines 1180-1183: missing per-bet server seed
    | none => ({ s with payoutError := some "missing_server_seed" }, none)
    | some seed =>
      -- lines 1189-1199: settle
      let rng := hmacInt seed (txSig ++ s.clientSeed)
      let result := if rng % 2 = 1 then "TREAT" else "TRICK"
      let win := result = choice
      let s1 : BetState :=
        { s with user := some sender, result := some result,
                 win := some (decide win), status := "SETTLED",
                 serverSeedReveal := some seed, txSig := some txSig }
      -- lines 1202-1210: `if win and wager > 0 and not existing_payout`
      if win ∧ 0 < s.wager ∧ s.payoutSig.isNone then
        match payRes with
        | .ok sig => ({ s1 with payoutSig := some sig }, some (s.wager * winMult))
        | .error e => ({ s1 with payoutError := some e }, some (s.wager * winMult))
      else (s1, none)

/-- main.py lines 1158-1163: the bet row is fetched first; an unknown bet id
(`if not row: continue`) discards the event with no effect and no payout. -/
def processWagerEvent (hmacInt : String → String → Nat) (winMult : Nat)
    (payRes : Except String String)
    (amt : Nat) (txSig sender choice : String)
    (bet : Option BetState) : Option BetState × Option Nat :=
  match bet with
  | none => (none, none)
  | some s =>
    let r := processWager hmacInt winMult payRes amt txSig sender choice s
    (some r.1, r.2)

/-! ### Rounds, entries, credits (db.py schema; main.py webhook JP branch) -/

/-- One row of the `rounds` table (db.py lines 30-43).  Timestamps and the
informational `client_seed` are omitted; `winner` and `payout_sig` columns
are never written by the code paths under study (the winner and payout
reference go to the KV table), so they are omitted as constantly NULL. -/
structure Round where
  id : String
  status : String
  pot : Nat
  serverSeedHash : Option String
  serverSeedReveal : Option String
  finalizeSlot : Nat
  deriving Repr, DecidableEq

/-- One row of the `entries` table (db.py lines 61-70). -/
structure Entry where
  roundId : String
  user : String
  tickets : Nat
  txSig : String
  deriving Repr, DecidableEq

/-- The slice of database state touched by the jackpot webhook branch and by
`admin_close_round`: the rounds and entries tables, the per-wallet
`raffle_credit:*` KV entries, the `current_round_id` pointer, the
`round:next_id` counter, and the current round's `round:<rid>:server_seed`
KV secret. -/
structure SysState where
  currentRoundId : String
  rounds : List Round
  entries : List Entry
  credits : List (String × Nat)
  roundServerSeed : Option String
  nextId : Nat
  deriving Repr, DecidableEq

/-- First round row with the given id (`SELECT ... FROM rounds WHERE id=?`;
id is the primary key). -/
def lookupRound (rounds : List Round) (rid : String) : Option Round :=
  rounds.find? (fun r => r.id = rid)

/-- `UPDATE rounds SET pot = COALESCE(pot,0) + ? WHERE id=?`. -/
def bumpPot (rounds : List Round) (rid : String) (add : Nat) : List Round :=
  rounds.map (fun r => if r.id = rid then { r with pot := r.pot + add } else r)

/-- Wallet's raffle credit: `int(kv_get(raffle_credit:<wallet>) or 0)`. -/
def creditOf (credits : List (String × Nat)) (wallet : String) : Nat :=
  ((credits.find? (fun p => p.1 = wallet)).map Prod.snd).getD 0

/-- Upsert of the `raffle_credit:<wallet>` KV entry. -/
def setCredit (credits : List (String × Nat)) (wallet : String) (v : Nat) :
    List (String × Nat) :=
  if (credits.find? (fun p => p.1 = wallet)).isSome then
    credits.map (fun p => if p.1 = wallet then (p.1, v) else p)
  else credits ++ [(wallet, v)]

/-- Python str.split on a one-character separator, over character data
(structurally recursive so it evaluates inside the kernel; agrees with
String.splitOn for a single-character separator). -/
def splitOnChar (sep : Char) : List Char → List (List Char)
  | [] => [[]]
  | c :: rest =>
    match splitOnChar sep rest with
    | [] => if c = sep then [[], []] else [[c]]
    | h :: t => if c = sep then [] :: h :: t else (c :: h) :: t

/-- Python memo.split for a one-character separator string. -/
def pySplit (s : String) (sep : Char) : List String :=
  (splitOnChar sep s.data).map String.mk

/-- main.py lines 1214-1218: round id from the `JP:` memo.
`parts = memo.split(":"); round_id = parts[1] if len(parts) >= 2 and
parts[1] else kv_get("current_round_id")`. -/
def jpRoundId (memo current : String) : String :=
  let parts := pySplit memo ':'
  if 2 ≤ parts.length ∧ parts.getD 1 "" ≠ "" then parts.getD 1 "" else current

/-- main.py lines 1213-1243, the `JP:` branch of `helius_webhook`, for an
event whose destination matched the jackpot vault.  The branch runs only
when `amt > 0`.  The body is one SQLite transaction (`BEGIN` ... commit,
rollback-and-raise on exception); `.error` therefore means the state is
unchanged.  With PRAGMA foreign_keys=ON, inserting an entry whose round_id
matches no rounds row raises, as does violating the UNIQUE index
idx_entries_txsig (db.py line 91). -/
def processRaffle (price : Nat) (memo txSig sender : String) (amt : Nat)
    (s : SysState) : Except String SysState :=
  if 0 < amt then
    let rid := jpRoundId memo s.currentRoundId
    let tickets := amt / price
    let remainder := amt - tickets * price
    let step1 : Except String SysState :=
      if 0 < tickets then
        if (lookupRound s.rounds rid).isNone then
          .error "FOREIGN KEY constraint failed"
        else if s.entries.any (fun e => e.txSig = txSig) then
          .error "UNIQUE constraint failed: entries.tx_sig"
        else
          .ok { s with
                entries := s.entries ++ [⟨rid, sender, tickets, txSig⟩],
                rounds := bumpPot s.rounds rid (tickets * price) }
      else .ok s
    match step1 with
    | .error e => .error e
    | .ok s1 =>
      if 0 < remainder then
        .ok { s1 with
              credits := setCredit s1.credits sender
                (creditOf s1.credits sender + remainder) }
      else .ok s1
  else .ok s

/-! ### Fairness engine: weighted draw and pot split (main.py 1319-1352) -/

/-- Sum of the tickets of the first `k` entry rows of a round. -/
def cumTickets (es : List (String × Nat)) (k : Nat) : Nat :=
  ((es.take k).map Prod.snd).sum

/-- `total_tix = sum(int(t or 0) for _u, t in entries)` (main.py 1319). -/
def totalTickets (es : List (String × Nat)) : Nat :=
  (es.map Prod.snd).sum

/-- main.py lines 1322-1327: the accumulator walk.
`acc = 0; for u, t in entries: acc += t; if acc > pick_space: winner = u; break`. -/
def drawGo (pick : Nat) : List (String × Nat) → Nat → Option String
  | [], _ => none
  | (u, t) :: rest, acc =>
    if pick < acc + t then some u else drawGo pick rest (acc + t)

/-- Winner of the weighted draw for a reduced draw value `pick`. -/
def drawWinner (es : List (String × Nat)) (pick : Nat) : Option String :=
  drawGo pick es 0

/-- main.py lines 1346-1352: pot split.  `devSet`/`burnSet` embed the
truthiness of the DEV_WALLET / BURN_ADDRESS strings.  Returns
(win_amt after remainder adjustment, dev_amt, burn_amt). -/
def splitPot (pot sw sd sb : Nat) (devSet burnSet : Bool) : Nat × Nat × Nat :=
  let totalPct := max 1 (sw + sd + sb)
  let winAmt := pot * sw / totalPct
  let devAmt := if devSet then pot * sd / totalPct else 0
  let burnAmt := if burnSet then pot * sb / totalPct else 0
  let remainder := pot - (winAmt + devAmt + burnAmt)
  (winAmt + remainder, devAmt, burnAmt)

/-! ### Round close (main.py `admin_close_round`, lines 1250-1409) -/

/-- main.py line 85: `ROUND_MIN = int(getattr(settings, "ROUND_MIN", 30))`;
config.py sets ROUND_MIN = 2. -/
def ROUND_MIN : Nat := 2

/-- main.py line 92: local constant. -/
def SLOTS_PER_MIN : Nat := 150

/-- the Python format of width-4 zero padding, R followed by the counter (main.py `alloc_next_round_id`). -/
def roundIdOfNat (n : Nat) : String :=
  let s := toString n
  "R" ++ String.mk (List.replicate (4 - s.length) '0') ++ s

/-- `SELECT tx_sig FROM entries WHERE round_id=? ORDER BY id DESC LIMIT 1`:
the newest (last-inserted) entry of the round, if any. -/
def lastTxOf (es : List Entry) : Option String :=
  (es.getLast?).map Entry.txSig

/-- main.py lines 1276-1292: entropy resolution.  `rpc` is the result of
`_rpc_get_blockhash_fallback(finalize_slot)` — `some (hash, some slot)`
for a block found at a slot, `some (hash, none)` for the latest-blockhash
fallback, `none` when it failed or raised; it is consulted only when
`finalize_slot` is non-zero.  Otherwise the newest entry's non-empty
tx_sig is used, else the fresh random token `randToken`
(`secrets.token_hex(16)`). -/
def resolveEntropy (finSlot : Nat) (rpc : Option (String × Option Nat))
    (lastTx : Option String) (randToken : String) : String :=
  match (if finSlot ≠ 0 then rpc else none) with
  | some (h, _) => h
  | none =>
    match lastTx with
    | some t => if t ≠ "" then t else randToken
    | none => randToken

/-- main.py lines 1294-1305: when the blockhash came from a different slot
than planned, the effective slot is persisted back onto the round. -/
def effectiveFinalizeSlot (finSlot : Nat)
    (rpc : Option (String × Option Nat)) : Nat :=
  match (if finSlot ≠ 0 then rpc else none) with
  | some (_, some s) => s
  | _ => finSlot

/-- main.py line 1401: the synthetic payment reference of a credit sweep,
the literal auto_credit_ followed by the new round id, an underscore, and
the first six characters of the owner wallet. -/
def syntheticRef (newId owner : String) : String :=
  "auto_credit_" ++ newId ++ "_" ++ owner.take 6

/-- Accumulated effect of the credit sweep loop (main.py 1390-1409):
entries inserted on the new round, total pot increment applied to it, and
the updated credit map. -/
structure SweepAcc where
  newEntries : List Entry
  potAdd : Nat
  credits : List (String × Nat)
  deriving Repr, DecidableEq

/-- One iteration of the sweep loop (main.py 1393-1408) for a credit row
`(owner, credit)`.  A wallet below the ticket price is left untouched.
Otherwise an entry with `credit // price` tickets is inserted under the
synthetic reference; the UNIQUE index on entries(tx_sig) makes the insert
raise when the reference collides with any existing or just-inserted
entry's tx_sig (`existingSigs` holds the tx_sigs already in the table). -/
def sweepOne (price : Nat) (newId : String) (existingSigs : List String)
    (acc : SweepAcc) (row : String × Nat) : Except String SweepAcc :=
  let owner := row.1
  let credit := row.2
  if price ≤ credit then
    let tix := credit / price
    let rem := credit % price
    let ref := syntheticRef newId owner
    if existingSigs.contains ref ∨ acc.newEntries.any (fun e => e.txSig = ref) then
      .error "UNIQUE constraint failed: entries.tx_sig"
    else
      .ok { newEntries := acc.newEntries ++ [⟨newId, owner, tix, ref⟩],
            potAdd := acc.potAdd + tix * price,
            credits := setCredit acc.credits owner rem }
  else .ok acc

/-- The whole sweep loop over the `raffle_credit:%` KV rows. -/
def sweepCredits (price : Nat) (newId : String) (existingSigs : List String)
    (rows : List (String × Nat)) : Except String SweepAcc :=
  rows.foldlM (sweepOne price newId existingSigs) ⟨[], 0, rows⟩

/-- `SELECT user, tickets FROM entries WHERE round_id=?` for the current
round, in insertion order. -/
def roundEntries (s : SysState) : List (String × Nat) :=
  (s.entries.filter (fun e => e.roundId = s.currentRoundId)).map
    (fun e => (e.user, e.tickets))

/-- The committed round secret, with the defensive backstop of main.py
lines 1270-1273 (`secrets.token_hex(32)` when the KV entry is missing). -/
def closeSeed (s : SysState) (backstopSeed : String) : String :=
  s.roundServerSeed.getD backstopSeed

/-- The entropy `admin_close_round` resolves for the current round:
`resolveEntropy` applied to the round's stored finalize_slot, the RPC
result, and the round's newest entry. -/
def closeEntropy (s : SysState) (rpc : Option (String × Option Nat))
    (randToken : String) : String :=
  resolveEntropy (((lookupRound s.rounds s.currentRoundId).map Round.finalizeSlot).getD 0)
    rpc (lastTxOf (s.entries.filter (fun e => e.roundId = s.currentRoundId))) randToken

/-- main.py line 1321: the reduced draw value,
`int.from_bytes(_hmac(round_server_seed, entropy + rid), "big") % total_tix`. -/
def drawPick (hmacInt : String → String → Nat) (s : SysState)
    (rpc : Option (String × Option Nat)) (randToken backstopSeed : String) : Nat :=
  hmacInt (closeSeed s backstopSeed)
      (closeEntropy s rpc randToken ++ s.currentRoundId)
    % totalTickets ((s.entries.filter (fun e => e.roundId = s.currentRoundId)).map
        (fun e => (e.user, e.tickets)))

/-- Sample pending bet used by concrete instances below (wager 1_000_000,
side TREAT scenario of the spec). -/
def samplePendingBet : BetState :=
  { wager := 1000000, clientSeed := "c1", status := "PENDING",
    user := none, result := none, win := none, serverSeedReveal := none,
    txSig := none, payoutSig := none, payoutError := none,
    shortDeposit := none, serverSeed := some "s1" }

/-- Sample bet that is SETTLED as a win but whose payout previously failed,
so no payout reference was recorded. -/
def sampleSettledUnpaidBet : BetState :=
  { wager := 1000000, clientSeed := "c1", status := "SETTLED",
    user := some "alice", result := some "TREAT", win := some true,
    serverSeedReveal := some "s1", txSig := some "txA",
    payoutSig := none, payoutError := some "rpc down",
    shortDeposit := none, serverSeed := some "s1" }

/-- Sample bet that is SETTLED with a recorded payout reference. -/
def sampleSettledPaidBet : BetState :=
  { sampleSettledUnpaidBet with payoutSig := some "sig1", payoutError := none }

/-- Sample pending bet whose per-bet KV server seed is missing. -/
def sampleSeedlessBet : BetState :=
  { samplePendingBet with serverSeed := none }

/-- Sample system state: one OPEN round R0001 with an empty pot. -/
def sampleOpenState : SysState :=
  { currentRoundId := "R0001",
    rounds := [{ id := "R0001", status := "OPEN", pot := 0,
                 serverSeedHash := some "h", serverSeedReveal := none,
                 finalizeSlot := 0 }],
    entries := [], credits := [], roundServerSeed := some "srv", nextId := 1 }

/-- Sample system state ready for a draw: round R0001 with pot 5_000_000
and entries A:3 and B:2 (the spec scenario). -/
def sampleDrawState : SysState :=
  { currentRoundId := "R0001",
    rounds := [{ id := "R0001", status := "OPEN", pot := 5000000,
                 serverSeedHash := some "h", serverSeedReveal := none,
                 finalizeSlot := 0 }],
    entries := [{ roundId := "R0001", user := "A", tickets := 3, txSig := "t1" },
                { roundId := "R0001", user := "B", tickets := 2, txSig := "t2" }],
    credits := [], roundServerSeed := some "srv", nextId := 1 }

/-- Sample system state with pot 0, a pre-committed finalize slot of 7,
and one pending wallet credit, used for the round-close edge case. -/
def samplePotZeroState : SysState :=
  { sampleOpenState with
    rounds := [{ id := "R0001", status := "OPEN", pot := 0,
                 serverSeedHash := some "h", serverSeedReveal := none,
                 finalizeSlot := 7 }],
    credits := [("abcdefXX", 2500000)] }

/-- Pot of a round as read back from the rounds table (0 if the row is
missing, matching `int(r[0] if r else 0)`). -/
def potOf (s : SysState) (rid : String) : Nat :=
  (((lookupRound s.rounds rid)).map Round.pot).getD 0

deriving instance DecidableEq for Except

/-- Everything `admin_close_round` writes: the settled round row (absent
when the current-round pointer named no row — the UPDATEs then match
nothing), the freshly inserted round row, the updated current-round
pointer, the KV audit fields of the settled round, the winner chosen by
the draw, the amounts handed to `pay_jackpot_split` (`none` when no payout
call was made), and the outcome of the credit sweep. -/
structure CloseOut where
  settledRound : Option Round
  newRound : Round
  currentRoundId : String
  nextId : Nat
  kvEntropy : String
  kvWinner : Option String
  kvPayoutSig : Option String
  kvPayoutError : Option String
  kvSplit : Option (Nat × Nat × Nat)
  winner : Option String
  payoutCall : Option (Nat × Nat × Nat)
  sweep : Except String SweepAcc
  deriving Repr, DecidableEq

/-- main.py lines 1250-1409, `admin_close_round` as one state transformer.
External inputs: `hmacInt`/`hashFn` the crypto primitives, `price` the
normalized TICKET_PRICE, `devW`/`burnA` the DEV_WALLET/BURN_ADDRESS
strings, `rpc` the blockhash lookup result, `randToken` the
`secrets.token_hex(16)` entropy fallback, `backstopSeed` the defensive
round secret, `payRes` the `pay_jackpot_split` outcome, `newSeed` the new
round's `secrets.token_hex(32)` secret, `currSlot` the RPC slot. -/
def closeRound (hmacInt : String → String → Nat) (hashFn : String → String)
    (price : Nat) (devW burnA : String)
    (rpc : Option (String × Option Nat)) (randToken backstopSeed : String)
    (payRes : Except String String) (newSeed : String) (currSlot : Nat)
    (s : SysState) : CloseOut :=
  let rid := s.currentRoundId
  let r? := lookupRound s.rounds rid
  let pot := (r?.map Round.pot).getD 0
  let finSlot := (r?.map Round.finalizeSlot).getD 0
  let es := roundEntries s
  let seed := closeSeed s backstopSeed
  let entropy := closeEntropy s rpc randToken
  let finSlot1 := effectiveFinalizeSlot finSlot rpc
  let totalTix := totalTickets es
  let doDraw := 0 < pot ∧ 0 < totalTix
  let winner :=
    if doDraw then drawWinner es (drawPick hmacInt s rpc randToken backstopSeed)
    else none
  let split := splitPot pot SPLT_WIN SPLT_DEV SPLT_BURN (devW ≠ "") (burnA ≠ "")
  let newId := roundIdOfNat (s.nextId + 1)
  let settled := r?.map (fun r =>
    { r with status := "SETTLED",
             finalizeSlot := finSlot1,
             serverSeedReveal := if doDraw then some seed else r.serverSeedReveal })
  let newRound : Round :=
    { id := newId, status := "OPEN", pot := 0,
      serverSeedHash := some (hashFn newSeed), serverSeedReveal := none,
      finalizeSlot := currSlot + ROUND_MIN * SLOTS_PER_MIN }
  { settledRound := settled,
    newRound := newRound,
    currentRoundId := newId,
    nextId := s.nextId + 1,
    kvEntropy := entropy,
    kvWinner := if doDraw ∧ payRes.isOk then winner else none,
    kvPayoutSig := if doDraw then payRes.toOption else none,
    kvPayoutError :=
      match payRes with
      | .error e => if doDraw then some e else none
      | .ok _ => none,
    kvSplit := if doDraw ∧ payRes.isOk then some split else none,
    winner := winner,
    payoutCall := if doDraw then some split else none,
    sweep := sweepCredits price newId (s.entries.map Entry.txSig) s.credits }

/-! ## Helper lemmas -/

theorem cumTickets_nil (k : Nat) : cumTickets [] k = 0 := by
  simp [cumTickets]

theorem cumTickets_zero (l : List (String × Nat)) : cumTickets l 0 = 0 := by
  simp [cumTickets]

theorem cumTickets_succ_cons (p : String × Nat) (l : List (String × Nat))
    (k : Nat) : cumTickets (p :: l) (k + 1) = p.2 + cumTickets l k := by
  simp [cumTickets, List.take_succ_cons]

theorem cumTickets_le_total (l : List (String × Nat)) (k : Nat) :
    cumTickets l k ≤ totalTickets l := by
  unfold cumTickets totalTickets
  conv_rhs => rw [← List.take_append_drop k l]
  rw [List.map_append, List.sum_append]
  exact Nat.le_add_right _ _

/-- The accumulator walk of the weighted draw picks the first entry whose
cumulative ticket sum strictly exceeds the reduced draw value. -/
theorem drawGo_spec (l : List (String × Nat)) :
    ∀ (acc pick i : Nat) (hi : i < l.length),
      acc + cumTickets l i ≤ pick → pick < acc + cumTickets l (i + 1) →
      drawGo pick l acc = some (l.get ⟨i, hi⟩).1 := by
  induction l with
  | nil => intro acc pick i hi; simp at hi
  | cons hd tl ih =>
    intro acc pick i hi h1 h2
    match i with
    | 0 =>
      rw [cumTickets_succ_cons, cumTickets_zero] at h2
      rw [cumTickets_zero] at h1
      unfold drawGo
      rw [if_pos (by omega)]
      rfl
    | Nat.succ j =>
      rw [cumTickets_succ_cons] at h1 h2
      unfold drawGo
      rw [if_neg (by omega)]
      exact ih (acc + hd.2) pick j (by simpa using hi)
        (by omega) (by omega)

theorem lookupRound_bumpPot (rounds : List Round) (rid : String) (add : Nat) :
    lookupRound (bumpPot rounds rid add) rid
      = (lookupRound rounds rid).map
          (fun r => { r with pot := r.pot + add }) := by
  induction rounds with
  | nil => rfl
  | cons hd tl ih =>
    by_cases h : hd.id = rid
    · simp [lookupRound, bumpPot, List.find?_cons, h]
    · simp only [lookupRound, bumpPot, List.map_cons, List.find?_cons, if_neg h] at *
      simp only [h, decide_eq_false h, Bool.false_eq_true, if_false]
      exact ih

theorem creditOf_setCredit (c : List (String × Nat)) (w : String) (v : Nat) :
    creditOf (setCredit c w v) w = v := by
  induction c with
  | nil => simp [setCredit, creditOf]
  | cons hd tl ih =>
    by_cases h : hd.1 = w
    · simp [setCredit, creditOf, List.find?_cons, h]
    · by_cases h2 : ((tl.find? (fun p => p.1 = w)).isSome)
      · have hset : setCredit (hd :: tl) w v
            = hd :: setCredit tl w v := by
          simp [setCredit, List.find?_cons, h, h2]
        rw [hset]
        simpa [creditOf, List.find?_cons, h] using ih
      · have hset : setCredit (hd :: tl) w v
            = (hd :: tl) ++ [(w, v)] := by
          simp [setCredit, List.find?_cons, h, h2]
        rw [hset]
        have h3 : tl.find? (fun p => p.1 = w) = none := by
          cases hfind : tl.find? (fun p => p.1 = w) with
          | none => rfl
          | some q => rw [hfind] at h2; simp at h2
        have h4 : (tl ++ [(w, v)]).find? (fun p => decide (p.1 = w)) = some (w, v) := by
          rw [List.find?_append, h3]
          simp
        simp [creditOf, List.find?_cons, h, h4]

/-! ## Claim theorems -/

/-- C10: at configuration load, a TICKET_PRICE that is positive and
strictly below 10 to the TOKEN_DECIMALS power is multiplied by 10 to that
power (interpreted as whole tokens), so the effective ticket price used by
all subsequent arithmetic is never a positive value below that floor. -/
theorem ticketPrice_normalized (tp : Int) (dec : Nat)
    (h1 : 0 < tp) (h2 : tp < (10 : Int) ^ dec) :
    normalizeTicketPrice tp dec = tp * (10 : Int) ^ dec ∧
    (∀ tq : Int, 0 < normalizeTicketPrice tq dec →
      (10 : Int) ^ dec ≤ normalizeTicketPrice tq dec) := by
  have hpow : (0 : Int) < 10 ^ dec := pow_pos (by norm_num) dec
  constructor
  · unfold normalizeTicketPrice
    rw [if_pos ⟨ne_of_gt h1, h2⟩]
  · intro tq hq
    unfold normalizeTicketPrice at hq ⊢
    by_cases hc : tq ≠ 0 ∧ tq < (10 : Int) ^ dec
    · rw [if_pos hc] at hq ⊢
      have htq : 0 < tq := by
        rcases mul_pos_iff.1 hq with ⟨ha, _⟩ | ⟨_, hb⟩
        · exact ha
        · exact absurd hpow (not_lt.2 hb.le)
      calc (10 : Int) ^ dec = 1 * 10 ^ dec := (one_mul _).symm
        _ ≤ tq * 10 ^ dec := by
            exact mul_le_mul_of_nonneg_right (by omega) hpow.le
    · rw [if_neg hc] at hq ⊢
      push_neg at hc
      exact hc (by omega)

/-- Witness for C10 at TICKET_PRICE 5 and TOKEN_DECIMALS 6. -/
theorem ticketPrice_normalized_witness :
    (0 : Int) < 5 ∧ (5 : Int) < 10 ^ TOKEN_DECIMALS ∧
    normalizeTicketPrice 5 TOKEN_DECIMALS = 5 * 10 ^ TOKEN_DECIMALS := by
  refine ⟨by norm_num, by norm_num [TOKEN_DECIMALS], ?_⟩
  exact (ticketPrice_normalized 5 TOKEN_DECIMALS (by norm_num)
    (by norm_num [TOKEN_DECIMALS])).1

/-- C1 counterexample: a bet that is SETTLED but has no recorded payout
reference (its first payout attempt failed) is not discarded on
re-delivery — the duplicate event re-executes settlement and triggers
another payout call, updating the payout reference. -/
theorem settled_redelivery_counterexample :
    sampleSettledUnpaidBet.status = "SETTLED" ∧
    (processWager (fun _ _ => 1) WIN_AMOUNT (Except.ok "sig2") 1000000
        "txA" "alice" "TREAT" sampleSettledUnpaidBet).2 = some 2000000 ∧
    (processWager (fun _ _ => 1) WIN_AMOUNT (Except.ok "sig2") 1000000
        "txA" "alice" "TREAT" sampleSettledUnpaidBet).1.payoutSig
      = some "sig2" ∧
    sampleSettledUnpaidBet.payoutSig = none :=
  ⟨rfl, by decide, by decide, rfl⟩

/-- C1 (amended): for every bet whose status is SETTLED and whose payout
reference is already recorded, re-delivering the same payment-confirmation
event changes nothing — no settlement re-execution and no payout call. -/
theorem settled_with_payout_ref_discarded
    (hmacInt : String → String → Nat) (winMult : Nat)
    (payRes : Except String String) (amt : Nat)
    (txSig sender choice : String) (s : BetState)
    (h1 : s.status = "SETTLED") (h2 : s.payoutSig.isSome) :
    processWager hmacInt winMult payRes amt txSig sender choice s
      = (s, none) := by
  unfold processWager
  rw [if_pos ⟨by rw [h1]; decide, h2⟩]

/-- Witness for the amended C1: a concrete settled-and-paid bet is
returned unchanged with no payout call. -/
theorem settled_with_payout_ref_discarded_witness :
    sampleSettledPaidBet.status = "SETTLED" ∧
    sampleSettledPaidBet.payoutSig.isSome = true ∧
    processWager (fun _ _ => 1) WIN_AMOUNT (Except.ok "sig2") 1000000
        "txA" "alice" "TREAT" sampleSettledPaidBet
      = (sampleSettledPaidBet, none) :=
  ⟨rfl, rfl,
    settled_with_payout_ref_discarded (fun _ _ => 1) WIN_AMOUNT
      (Except.ok "sig2") 1000000 "txA" "alice" "TREAT"
      sampleSettledPaidBet rfl rfl⟩

/-- C9: when the per-bet server seed is absent from the KV store, an
adequately funded confirmation leaves the bet PENDING with result, win and
reveal unchanged, records the missing_server_seed error marker, and makes
no outcome computation or payout call. -/
theorem missing_server_seed_no_settlement
    (hmacInt : String → String → Nat) (winMult : Nat)
    (payRes : Except String String) (amt : Nat)
    (txSig sender choice : String) (s : BetState)
    (hstat : s.status = "PENDING") (hseed : s.serverSeed = none)
    (hamt : s.wager ≤ amt) :
    processWager hmacInt winMult payRes amt txSig sender choice s
      = ({ s with payoutError := some "missing_server_seed" }, none) ∧
    (processWager hmacInt winMult payRes amt txSig sender choice s).1.status
      = "PENDING" ∧
    (processWager hmacInt winMult payRes amt txSig sender choice s).1.result
      = s.result ∧
    (processWager hmacInt winMult payRes amt txSig sender choice s).1.win
      = s.win ∧
    (processWager hmacInt winMult payRes amt txSig sender choice s).1.serverSeedReveal
      = s.serverSeedReveal ∧
    (processWager hmacInt winMult payRes amt txSig sender choice s).2 = none := by
  have hg : ¬ (upperAscii s.status = "SETTLED" ∧ s.payoutSig.isSome) := by
    rintro ⟨hc, _⟩
    rw [hstat] at hc
    exact absurd hc (by decide)
  have hmain : processWager hmacInt winMult payRes amt txSig sender choice s
      = ({ s with payoutError := some "missing_server_seed" }, none) := by
    unfold processWager
    rw [if_neg hg, if_neg (by omega), hseed]
  refine ⟨hmain, ?_, ?_, ?_, ?_, ?_⟩ <;> simp [hmain, hstat]

/-- Witness for C9 on a concrete seedless pending bet. -/
theorem missing_server_seed_no_settlement_witness :
    sampleSeedlessBet.status = "PENDING" ∧
    sampleSeedlessBet.serverSeed = none ∧
    sampleSeedlessBet.wager ≤ 1000000 ∧
    processWager (fun _ _ => 1) WIN_AMOUNT (Except.ok "sig1") 1000000
        "txA" "alice" "TREAT" sampleSeedlessBet
      = ({ sampleSeedlessBet with payoutError := some "missing_server_seed" },
         none) :=
  ⟨rfl, rfl, by decide,
    (missing_server_seed_no_settlement (fun _ _ => 1) WIN_AMOUNT
      (Except.ok "sig1") 1000000 "txA" "alice" "TREAT"
      sampleSeedlessBet rfl rfl (by decide)).1⟩

/-- C4: an adequately funded wager confirmation settles the bet; the
outcome is TREAT exactly when the keyed pseudo-random integer over the
payment reference concatenated with the client seed is odd (TRICK when
even), win holds exactly when the outcome equals the chosen side, and a
winning bet's payout call is for wager times the win-multiplier 2. -/
theorem coinflip_outcome_spec (hmacInt : String → String → Nat)
    (payRes : Except String String) (amt : Nat)
    (txSig sender choice : String) (s : BetState) (seed : String)
    (hseed : s.serverSeed = some seed)
    (hamt : s.wager ≤ amt)
    (hps : s.payoutSig = none) :
    ((processWager hmacInt WIN_AMOUNT payRes amt txSig sender choice s).1.result
        = some "TREAT"
      ↔ hmacInt seed (txSig ++ s.clientSeed) % 2 = 1) ∧
    ((processWager hmacInt WIN_AMOUNT payRes amt txSig sender choice s).1.result
        = some "TRICK"
      ↔ hmacInt seed (txSig ++ s.clientSeed) % 2 = 0) ∧
    ((processWager hmacInt WIN_AMOUNT payRes amt txSig sender choice s).1.win
        = some true
      ↔ (processWager hmacInt WIN_AMOUNT payRes amt txSig sender choice s).1.result
          = some choice) ∧
    (processWager hmacInt WIN_AMOUNT payRes amt txSig sender choice s).1.status
      = "SETTLED" ∧
    ((processWager hmacInt WIN_AMOUNT payRes amt txSig sender choice s).1.win
        = some true → 0 < s.wager →
      (processWager hmacInt WIN_AMOUNT payRes amt txSig sender choice s).2
        = some (s.wager * 2)) := by
  have hg : ¬ (upperAscii s.status = "SETTLED" ∧ s.payoutSig.isSome) := by
    rintro ⟨_, hp⟩
    rw [hps] at hp
    exact absurd hp (by decide)
  have hnl : ¬ (amt < s.wager) := by omega
  unfold processWager
  rw [if_neg hg, if_neg hnl, hseed]
  by_cases hc : hmacInt seed (txSig ++ s.clientSeed) % 2 = 1
  · have h0 : ¬ (hmacInt seed (txSig ++ s.clientSeed) % 2 = 0) := by omega
    by_cases hres : "TREAT" = choice
    · subst hres
      by_cases hwag : 0 < s.wager
      · rcases payRes with e | sig
        all_goals simp [hc, h0, hwag, hps, WIN_AMOUNT,
          (by decide : ¬ ("TREAT" : String) = "TRICK")]
      · simp [hc, h0, hwag, hps,
          (by decide : ¬ ("TREAT" : String) = "TRICK")]
    · simp [hc, h0, hres, hps]
  · have h0 : hmacInt seed (txSig ++ s.clientSeed) % 2 = 0 := by omega
    by_cases hres : "TRICK" = choice
    · subst hres
      by_cases hwag : 0 < s.wager
      · rcases payRes with e | sig
        all_goals simp [hc, h0, hwag, hps, WIN_AMOUNT,
          (by decide : ¬ ("TRICK" : String) = "TREAT")]
      · simp [hc, h0, hwag, hps,
          (by decide : ¬ ("TRICK" : String) = "TREAT")]
    · simp [hc, h0, hres, hps]

/-- Witness for C4: the spec scenario — wager 1_000_000, side TREAT,
payment reference txA, client seed c1; an odd keyed pseudo-random value
yields outcome TREAT, a win, and a payout call of 2_000_000. -/
theorem coinflip_outcome_spec_witness :
    samplePendingBet.serverSeed = some "s1" ∧
    samplePendingBet.wager ≤ 1000000 ∧
    samplePendingBet.payoutSig = none ∧
    (processWager (fun _ _ => 1) WIN_AMOUNT (Except.ok "sig1") 1000000
        "txA" "alice" "TREAT" samplePendingBet).1.result = some "TREAT" ∧
    (processWager (fun _ _ => 1) WIN_AMOUNT (Except.ok "sig1") 1000000
        "txA" "alice" "TREAT" samplePendingBet).2 = some 2000000 := by
  have h := coinflip_outcome_spec (fun _ _ => 1) (Except.ok "sig1") 1000000
    "txA" "alice" "TREAT" samplePendingBet "s1" rfl (by decide) rfl
  have hres : (processWager (fun _ _ => 1) WIN_AMOUNT (Except.ok "sig1")
      1000000 "txA" "alice" "TREAT" samplePendingBet).1.result
      = some "TREAT" := h.1.mpr (by decide)
  have hwin : (processWager (fun _ _ => 1) WIN_AMOUNT (Except.ok "sig1")
      1000000 "txA" "alice" "TREAT" samplePendingBet).1.win
      = some true := h.2.2.1.mpr hres
  exact ⟨rfl, by decide, rfl, hres,
    by simpa using h.2.2.2.2 hwin (by decide)⟩

/-- C5: a raffle deposit of a given amount records floor(amount/price)
tickets as a new Entry on the memo's round, increments that round's pot by
tickets times price, and adds the remainder to the sender's Credit; all
inside one transaction (an aborted transaction leaves the state
unchanged, by the Except embedding of rollback). -/
theorem raffle_deposit_effects (price : Nat) (memo txSig sender : String)
    (amt : Nat) (s : SysState) (r : Round)
    (hp : 0 < price) (hamt : price ≤ amt)
    (hr : lookupRound s.rounds (jpRoundId memo s.currentRoundId) = some r)
    (hfresh : s.entries.any (fun e => e.txSig = txSig) = false) :
    ∃ s2, processRaffle price memo txSig sender amt s = Except.ok s2 ∧
      s2.entries = s.entries ++
        [⟨jpRoundId memo s.currentRoundId, sender, amt / price, txSig⟩] ∧
      potOf s2 (jpRoundId memo s.currentRoundId)
        = potOf s (jpRoundId memo s.currentRoundId) + (amt / price) * price ∧
      creditOf s2.credits sender
        = creditOf s.credits sender + (amt - (amt / price) * price) := by
  have h0 : 0 < amt := lt_of_lt_of_le hp hamt
  have htix : 0 < amt / price := Nat.div_pos hamt hp
  have hisn : (lookupRound s.rounds (jpRoundId memo s.currentRoundId)).isNone
      = false := by rw [hr]; rfl
  have hpot : ∀ t : Nat,
      ((lookupRound (bumpPot s.rounds (jpRoundId memo s.currentRoundId) t)
          (jpRoundId memo s.currentRoundId)).map Round.pot).getD 0
        = potOf s (jpRoundId memo s.currentRoundId) + t := by
    intro t
    rw [lookupRound_bumpPot, hr]
    unfold potOf
    rw [hr]
    rfl
  by_cases hrem : 0 < amt - (amt / price) * price
  · refine ⟨{ s with
        entries := s.entries ++
          [⟨jpRoundId memo s.currentRoundId, sender, amt / price, txSig⟩],
        rounds := bumpPot s.rounds (jpRoundId memo s.currentRoundId)
          ((amt / price) * price),
        credits := setCredit s.credits sender
          (creditOf s.credits sender + (amt - (amt / price) * price)) },
      ?_, rfl, ?_, ?_⟩
    · unfold processRaffle
      rw [if_pos h0]
      simp only [if_pos htix, hisn, Bool.false_eq_true, if_false, hfresh,
        if_pos hrem]
    · exact hpot _
    · exact creditOf_setCredit _ _ _
  · refine ⟨{ s with
        entries := s.entries ++
          [⟨jpRoundId memo s.currentRoundId, sender, amt / price, txSig⟩],
        rounds := bumpPot s.rounds (jpRoundId memo s.currentRoundId)
          ((amt / price) * price) },
      ?_, rfl, ?_, ?_⟩
    · unfold processRaffle
      rw [if_pos h0]
      simp only [if_pos htix, hisn, Bool.false_eq_true, if_false, hfresh,
        if_neg hrem]
    · exact hpot _
    · show creditOf s.credits sender
          = creditOf s.credits sender + (amt - (amt / price) * price)
      omega

/-- The single round row of sampleOpenState. -/
theorem sampleOpenState_lookup :
    lookupRound sampleOpenState.rounds
        (jpRoundId "JP:R0001:n1" sampleOpenState.currentRoundId)
      = some { id := "R0001", status := "OPEN", pot := 0,
               serverSeedHash := some "h", serverSeedReveal := none,
               finalizeSlot := 0 } := by decide

/-- Witness for C5: the spec scenario — 2_500_000 deposited at ticket
price 1_000_000 buys 2 tickets, adds 2_000_000 to the pot and 500_000 to
the sender's credit. -/
theorem raffle_deposit_effects_witness :
    0 < 1000000 ∧ 1000000 ≤ 2500000 ∧ 2500000 / 1000000 = 2 ∧
    (2500000 : Nat) - (2500000 / 1000000) * 1000000 = 500000 ∧
    (∃ s2, processRaffle 1000000 "JP:R0001:n1" "tx1" "alice" 2500000
          sampleOpenState = Except.ok s2 ∧
      s2.entries = sampleOpenState.entries ++
        [⟨jpRoundId "JP:R0001:n1" sampleOpenState.currentRoundId, "alice",
          2500000 / 1000000, "tx1"⟩] ∧
      potOf s2 (jpRoundId "JP:R0001:n1" sampleOpenState.currentRoundId)
        = potOf sampleOpenState
            (jpRoundId "JP:R0001:n1" sampleOpenState.currentRoundId)
          + (2500000 / 1000000) * 1000000 ∧
      creditOf s2.credits "alice"
        = creditOf sampleOpenState.credits "alice"
          + (2500000 - (2500000 / 1000000) * 1000000)) :=
  ⟨by decide, by decide, by decide, by decide,
    raffle_deposit_effects 1000000 "JP:R0001:n1" "tx1" "alice" 2500000
      sampleOpenState
      { id := "R0001", status := "OPEN", pot := 0,
        serverSeedHash := some "h", serverSeedReveal := none,
        finalizeSlot := 0 }
      (by decide) (by decide) sampleOpenState_lookup (by decide)⟩

/-- C7 counterexample: a raffle memo carrying the unknown round id R0999
is not attributed to the current round R0001 — the parsed round id is
used as-is, the entry insert violates the rounds foreign key, and the
transaction is rolled back with no effect. -/
theorem unknown_round_id_counterexample :
    jpRoundId "JP:R0999:n1" "R0001" = "R0999" ∧
    ("R0999" : String) ≠ "R0001" ∧
    processRaffle 1000000 "JP:R0999:n1" "tx9" "alice" 2500000 sampleOpenState
      = Except.error "FOREIGN KEY constraint failed" :=
  ⟨by decide, by decide, by decide⟩

/-- C7 (amended): the current-round fallback applies to a raffle deposit
exactly when the memo's round-id segment is empty; a raffle deposit
carrying an unknown non-empty round id is not redirected — its entry
insert fails the rounds foreign key and the whole transaction aborts with
no effect; and a wager deposit for an unknown bet id is discarded with no
effect and no payout call. -/
theorem unknown_id_handling
    (price amt amtU : Nat) (memo memoU txSig txSigU sender senderU choice : String)
    (hmacInt : String → String → Nat) (winMult : Nat)
    (payRes : Except String String) (s sU : SysState)
    (hseg : (pySplit memo ':').getD 1 "" = "")
    (hp : 0 < price) (hamtU : price ≤ amtU)
    (hlkU : lookupRound sU.rounds (jpRoundId memoU sU.currentRoundId) = none) :
    jpRoundId memo s.currentRoundId = s.currentRoundId ∧
    processRaffle price memoU txSigU senderU amtU sU
      = Except.error "FOREIGN KEY constraint failed" ∧
    processWagerEvent hmacInt winMult payRes amt txSig sender choice none
      = (none, none) := by
  refine ⟨?_, ?_, rfl⟩
  · unfold jpRoundId
    have hseg2 : (pySplit memo ':')[1]?.getD "" = "" := by
      simpa [List.getD] using hseg
    simp [List.getD, hseg2]
  · have h0 : 0 < amtU := lt_of_lt_of_le hp hamtU
    have htix : 0 < amtU / price := Nat.div_pos hamtU hp
    have hisn : (lookupRound sU.rounds (jpRoundId memoU sU.currentRoundId)).isNone
        = true := by rw [hlkU]; rfl
    unfold processRaffle
    rw [if_pos h0]
    simp only [if_pos htix, hisn, if_true]

/-- Witness for the amended C7 at concrete inputs: an empty round-id
segment falls back to the current round, an unknown round id aborts with
the foreign-key error, an unknown bet id is discarded. -/
theorem unknown_id_handling_witness :
    (pySplit "JP::n1" ':').getD 1 "" = "" ∧
    0 < 1000000 ∧ 1000000 ≤ 2500000 ∧
    lookupRound sampleOpenState.rounds
        (jpRoundId "JP:R0777:n1" sampleOpenState.currentRoundId) = none ∧
    (jpRoundId "JP::n1" sampleOpenState.currentRoundId
        = sampleOpenState.currentRoundId ∧
     processRaffle 1000000 "JP:R0777:n1" "tx7" "bob" 2500000 sampleOpenState
        = Except.error "FOREIGN KEY constraint failed" ∧
     processWagerEvent (fun _ _ => 1) WIN_AMOUNT (Except.ok "x") 1000000
        "txB" "bob" "TRICK" none = (none, none)) :=
  ⟨by decide, by decide, by decide, by decide,
    unknown_id_handling 1000000 1000000 2500000 "JP::n1" "JP:R0777:n1"
      "txB" "tx7" "bob" "bob" "TRICK" (fun _ _ => 1) WIN_AMOUNT
      (Except.ok "x") sampleOpenState sampleOpenState
      (by decide) (by decide) (by decide) (by decide)⟩

/-- C8 counterexample: the synthetic sweep reference uses only the first
six characters of the wallet, so two distinct wallets sharing a
six-character prefix map to the same reference; sweeping both in the same
round trips the UNIQUE index on entries(tx_sig), so the second wallet is
not swept. -/
theorem synthetic_ref_collision_counterexample :
    syntheticRef "R0002" "abcdefXX" = syntheticRef "R0002" "abcdefYY" ∧
    ("abcdefXX" : String) ≠ "abcdefYY" ∧
    sweepCredits 1000000 "R0002" []
        [("abcdefXX", 1000000), ("abcdefYY", 1000000)]
      = Except.error "UNIQUE constraint failed: entries.tx_sig" :=
  ⟨by decide, by decide, by decide⟩

/-- C8 (amended): after the new round opens, each credit row with balance
at least the ticket price is swept — floor(credit/price) tickets are
inserted on the new round under the synthetic reference derived from the
round id and the wallet's first six characters (collision-free only among
wallets with distinct six-character prefixes; a colliding reference makes
the insert fail the unique index), the new round's pot increment is
accumulated, and the remainder credit mod price, strictly below the
price, is stored back; a row below the price is left untouched. -/
theorem credit_sweep_row (price : Nat) (newId owner : String)
    (credit : Nat) (sigs : List String) (acc : SweepAcc)
    (hp : 0 < price) (hc : price ≤ credit)
    (hfresh : sigs.contains (syntheticRef newId owner) = false)
    (hfresh2 : acc.newEntries.any
        (fun e => e.txSig = syntheticRef newId owner) = false) :
    sweepOne price newId sigs acc (owner, credit)
      = Except.ok
          { newEntries := acc.newEntries ++
              [⟨newId, owner, credit / price, syntheticRef newId owner⟩],
            potAdd := acc.potAdd + (credit / price) * price,
            credits := setCredit acc.credits owner (credit % price) } ∧
    credit % price < price ∧
    creditOf (setCredit acc.credits owner (credit % price)) owner
      = credit % price ∧
    (∀ c2 : Nat, c2 < price →
      sweepOne price newId sigs acc (owner, c2) = Except.ok acc) := by
  refine ⟨?_, Nat.mod_lt _ hp, creditOf_setCredit _ _ _, ?_⟩
  · unfold sweepOne
    simp only [if_pos hc, hfresh, hfresh2, Bool.false_eq_true, or_self,
      if_false]
  · intro c2 hc2
    unfold sweepOne
    rw [if_neg (by omega)]

/-- Witness for the amended C8: a wallet with credit 2_500_000 at price
1_000_000 is swept into 2 tickets with remainder 500_000; a wallet with
credit 400_000 is untouched. -/
theorem credit_sweep_row_witness :
    0 < 1000000 ∧ 1000000 ≤ 2500000 ∧
    ([] : List String).contains (syntheticRef "R0002" "walletA") = false ∧
    (([] : List Entry).any
        (fun e => e.txSig = syntheticRef "R0002" "walletA")) = false ∧
    (sweepOne 1000000 "R0002" [] ⟨[], 0, [("walletA", 2500000)]⟩
        ("walletA", 2500000)
      = Except.ok
          { newEntries := [] ++
              [⟨"R0002", "walletA", 2500000 / 1000000,
                syntheticRef "R0002" "walletA"⟩],
            potAdd := 0 + (2500000 / 1000000) * 1000000,
            credits := setCredit [("walletA", 2500000)] "walletA"
              (2500000 % 1000000) } ∧
      2500000 % 1000000 < 1000000 ∧
      creditOf (setCredit [("walletA", 2500000)] "walletA"
          (2500000 % 1000000)) "walletA" = 2500000 % 1000000 ∧
      (∀ c2 : Nat, c2 < 1000000 →
        sweepOne 1000000 "R0002" [] ⟨[], 0, [("walletA", 2500000)]⟩
            ("walletA", c2)
          = Except.ok ⟨[], 0, [("walletA", 2500000)]⟩)) :=
  ⟨by decide, by decide, by decide, by decide,
    credit_sweep_row 1000000 "R0002" "walletA" 2500000 []
      ⟨[], 0, [("walletA", 2500000)]⟩ (by decide) (by decide)
      (by decide) (by decide)⟩

/-- C3: the winner, dev and burn shares are computed by integer
percentage division of the pot; the rounding remainder is assigned
entirely to the winner share, so the three shares always sum exactly to
the pot; an unset dev wallet or burn address forces that share to zero;
and at round close these are exactly the amounts handed to the jackpot
payout call. -/
theorem pot_split_exact (pot sw sd sb : Nat) (devSet burnSet : Bool)
    (hmacInt : String → String → Nat) (hashFn : String → String)
    (price : Nat) (devW burnA : String)
    (rpc : Option (String × Option Nat)) (randToken backstopSeed : String)
    (payRes : Except String String) (newSeed : String) (currSlot : Nat)
    (s : SysState) (r : Round)
    (hr : lookupRound s.rounds s.currentRoundId = some r)
    (hpot : 0 < r.pot) (htix : 0 < totalTickets (roundEntries s)) :
    (splitPot pot sw sd sb devSet burnSet).1
      + (splitPot pot sw sd sb devSet burnSet).2.1
      + (splitPot pot sw sd sb devSet burnSet).2.2 = pot ∧
    (devSet = true → (splitPot pot sw sd sb devSet burnSet).2.1
      = pot * sd / max 1 (sw + sd + sb)) ∧
    (devSet = false → (splitPot pot sw sd sb devSet burnSet).2.1 = 0) ∧
    (burnSet = true → (splitPot pot sw sd sb devSet burnSet).2.2
      = pot * sb / max 1 (sw + sd + sb)) ∧
    (burnSet = false → (splitPot pot sw sd sb devSet burnSet).2.2 = 0) ∧
    (closeRound hmacInt hashFn price devW burnA rpc randToken backstopSeed
        payRes newSeed currSlot s).payoutCall
      = some (splitPot r.pot SPLT_WIN SPLT_DEV SPLT_BURN
          (devW ≠ "") (burnA ≠ "")) := by
  have hT0 : 0 < max 1 (sw + sd + sb) := lt_of_lt_of_le one_pos (le_max_left _ _)
  have hsum : sw + sd + sb ≤ max 1 (sw + sd + sb) := le_max_right _ _
  have h1 : (pot * sw / max 1 (sw + sd + sb)) * max 1 (sw + sd + sb)
      ≤ pot * sw := Nat.div_mul_le_self _ _
  have h2 : (pot * sd / max 1 (sw + sd + sb)) * max 1 (sw + sd + sb)
      ≤ pot * sd := Nat.div_mul_le_self _ _
  have h3 : (pot * sb / max 1 (sw + sd + sb)) * max 1 (sw + sd + sb)
      ≤ pot * sb := Nat.div_mul_le_self _ _
  have key : pot * sw / max 1 (sw + sd + sb)
      + pot * sd / max 1 (sw + sd + sb)
      + pot * sb / max 1 (sw + sd + sb) ≤ pot := by
    have h4 : (pot * sw / max 1 (sw + sd + sb)
        + pot * sd / max 1 (sw + sd + sb)
        + pot * sb / max 1 (sw + sd + sb)) * max 1 (sw + sd + sb)
        ≤ pot * max 1 (sw + sd + sb) := by
      calc (pot * sw / max 1 (sw + sd + sb)
          + pot * sd / max 1 (sw + sd + sb)
          + pot * sb / max 1 (sw + sd + sb)) * max 1 (sw + sd + sb)
          = (pot * sw / max 1 (sw + sd + sb)) * max 1 (sw + sd + sb)
            + (pot * sd / max 1 (sw + sd + sb)) * max 1 (sw + sd + sb)
            + (pot * sb / max 1 (sw + sd + sb)) * max 1 (sw + sd + sb) := by
            ring
        _ ≤ pot * sw + pot * sd + pot * sb := by omega
        _ = pot * (sw + sd + sb) := by ring
        _ ≤ pot * max 1 (sw + sd + sb) := Nat.mul_le_mul_left _ hsum
    exact Nat.le_of_mul_le_mul_right h4 hT0
  have hd : (if devSet = true then pot * sd / max 1 (sw + sd + sb) else 0)
      ≤ pot * sd / max 1 (sw + sd + sb) := by
    split
    · exact le_refl _
    · exact Nat.zero_le _
  have hb : (if burnSet = true then pot * sb / max 1 (sw + sd + sb) else 0)
      ≤ pot * sb / max 1 (sw + sd + sb) := by
    split
    · exact le_refl _
    · exact Nat.zero_le _
  refine ⟨?_, ?_, ?_, ?_, ?_, ?_⟩
  · show (pot * sw / max 1 (sw + sd + sb)
        + (pot - (pot * sw / max 1 (sw + sd + sb)
            + (if devSet = true then pot * sd / max 1 (sw + sd + sb) else 0)
            + (if burnSet = true then pot * sb / max 1 (sw + sd + sb) else 0))))
        + (if devSet = true then pot * sd / max 1 (sw + sd + sb) else 0)
        + (if burnSet = true then pot * sb / max 1 (sw + sd + sb) else 0)
      = pot
    omega
  · intro h
    simp [splitPot, h]
  · intro h
    simp [splitPot, h]
  · intro h
    simp [splitPot, h]
  · intro h
    simp [splitPot, h]
  · unfold closeRound
    simp only [hr, Option.map_some', Option.getD_some]
    rw [if_pos ⟨hpot, htix⟩]

/-- Witness for C3: a pot of 1_000_003 splits 80/10/10 into
800002 + 100000 + 100000 + remainder 1 to the winner, summing exactly;
and the concrete draw-ready state hands exactly the splitPot amounts to
the payout call. -/
theorem pot_split_exact_witness :
    lookupRound sampleDrawState.rounds sampleDrawState.currentRoundId
      = some { id := "R0001", status := "OPEN", pot := 5000000,
               serverSeedHash := some "h", serverSeedReveal := none,
               finalizeSlot := 0 } ∧
    0 < (5000000 : Nat) ∧
    0 < totalTickets (roundEntries sampleDrawState) ∧
    (splitPot 1000003 80 10 10 true true).1
      + (splitPot 1000003 80 10 10 true true).2.1
      + (splitPot 1000003 80 10 10 true true).2.2 = 1000003 ∧
    (closeRound (fun _ _ => 4) (fun _ => "HH") 1000000 "dev" "burn" none
        "rt" "bs" (Except.ok "ps") "ns" 100 sampleDrawState).payoutCall
      = some (splitPot 5000000 SPLT_WIN SPLT_DEV SPLT_BURN
          (("dev" : String) ≠ "") (("burn" : String) ≠ "")) := by
  have h := pot_split_exact 1000003 80 10 10 true true (fun _ _ => 4)
    (fun _ => "HH") 1000000 "dev" "burn" none "rt" "bs" (Except.ok "ps")
    "ns" 100 sampleDrawState
    { id := "R0001", status := "OPEN", pot := 5000000,
      serverSeedHash := some "h", serverSeedReveal := none,
      finalizeSlot := 0 }
    (by decide) (by decide) (by decide)
  exact ⟨by decide, by decide, by decide, h.1, h.2.2.2.2.2⟩

/-- C2: for a round with pot > 0 and total tickets > 0 the winner is
chosen by reducing the keyed pseudo-random integer over the entropy
concatenated with the round id modulo the total ticket count and walking
the entries in insertion order; the first entry whose cumulative ticket
sum strictly exceeds the reduced value wins.  In particular for entries
A:3 and B:2 with reduced draw value 4 the winner is B. -/
theorem weighted_draw_winner
    (hmacInt : String → String → Nat) (hashFn : String → String)
    (price : Nat) (devW burnA : String)
    (rpc : Option (String × Option Nat)) (randToken backstopSeed : String)
    (payRes : Except String String) (newSeed : String) (currSlot : Nat)
    (s : SysState) (r : Round) (i : Nat)
    (hr : lookupRound s.rounds s.currentRoundId = some r)
    (hpot : 0 < r.pot)
    (hi : i < (roundEntries s).length)
    (h1 : cumTickets (roundEntries s) i
      ≤ drawPick hmacInt s rpc randToken backstopSeed)
    (h2 : drawPick hmacInt s rpc randToken backstopSeed
      < cumTickets (roundEntries s) (i + 1)) :
    (closeRound hmacInt hashFn price devW burnA rpc randToken backstopSeed
        payRes newSeed currSlot s).winner
      = some ((roundEntries s).get ⟨i, hi⟩).1 ∧
    drawWinner [("A", 3), ("B", 2)] 4 = some "B" := by
  constructor
  · have htix : 0 < totalTickets (roundEntries s) := by
      have hle : cumTickets (roundEntries s) (i + 1)
          ≤ totalTickets (roundEntries s) := cumTickets_le_total _ _
      omega
    unfold closeRound
    simp only [hr, Option.map_some', Option.getD_some]
    rw [if_pos ⟨hpot, htix⟩]
    unfold drawWinner
    exact drawGo_spec (roundEntries s) 0 _ i hi (by simpa using h1)
      (by simpa using h2)
  · decide

/-- Witness for C2 on the concrete draw-ready state: the keyed value 4
reduced modulo 5 tickets selects index 1, wallet B. -/
theorem weighted_draw_winner_witness :
    lookupRound sampleDrawState.rounds sampleDrawState.currentRoundId
      = some { id := "R0001", status := "OPEN", pot := 5000000,
               serverSeedHash := some "h", serverSeedReveal := none,
               finalizeSlot := 0 } ∧
    0 < (5000000 : Nat) ∧
    1 < (roundEntries sampleDrawState).length ∧
    cumTickets (roundEntries sampleDrawState) 1
      ≤ drawPick (fun _ _ => 4) sampleDrawState none "rt" "bs" ∧
    drawPick (fun _ _ => 4) sampleDrawState none "rt" "bs"
      < cumTickets (roundEntries sampleDrawState) 2 ∧
    ((closeRound (fun _ _ => 4) (fun _ => "HH") 1000000 "dev" "burn" none
        "rt" "bs" (Except.ok "ps") "ns" 100 sampleDrawState).winner
      = some "B" ∧
     drawWinner [("A", 3), ("B", 2)] 4 = some "B") :=
  ⟨by decide, by decide, by decide, by decide, by decide,
    weighted_draw_winner (fun _ _ => 4) (fun _ => "HH") 1000000 "dev"
      "burn" none "rt" "bs" (Except.ok "ps") "ns" 100 sampleDrawState
      { id := "R0001", status := "OPEN", pot := 5000000,
        serverSeedHash := some "h", serverSeedReveal := none,
        finalizeSlot := 0 }
      1 (by decide) (by decide) (by decide) (by decide) (by decide)⟩

/-- C6 counterexample: closing a round with pot 0 marks it SETTLED and
opens a new round, but does not persist the revealed server secret — the
committed secret exists in the KV store, yet the settled round row's
server_seed_reveal stays NULL because the reveal UPDATE runs only inside
the draw branch. -/
theorem round_close_reveal_counterexample :
    samplePotZeroState.roundServerSeed = some "srv" ∧
    (closeRound (fun _ _ => 0) (fun _ => "HH") 1000000 "dev" "burn"
        (some ("bh", some 9)) "rt" "bs" (Except.ok "ps") "ns" 100
        samplePotZeroState).settledRound
      = some { id := "R0001", status := "SETTLED", pot := 0,
               serverSeedHash := some "h", serverSeedReveal := none,
               finalizeSlot := 9 } :=
  ⟨rfl, by decide⟩

/-- C6 (amended): every round-close execution marks the closing round
SETTLED, opens a new OPEN round with the next sequential id, moves the
current-round pointer to it, and persists the resolved entropy; when
pot = 0 or total tickets = 0 no draw occurs and no payout call is made
(and the round row's reveal column is left unchanged); the revealed
server secret is persisted onto the round row only when pot > 0 and
total tickets > 0. -/
theorem round_close_lifecycle
    (hmacInt : String → String → Nat) (hashFn : String → String)
    (price : Nat) (devW burnA : String)
    (rpc : Option (String × Option Nat)) (randToken backstopSeed : String)
    (payRes : Except String String) (newSeed : String) (currSlot : Nat)
    (s : SysState) (r : Round)
    (hr : lookupRound s.rounds s.currentRoundId = some r) :
    (closeRound hmacInt hashFn price devW burnA rpc randToken backstopSeed
        payRes newSeed currSlot s).settledRound.map Round.status
      = some "SETTLED" ∧
    (closeRound hmacInt hashFn price devW burnA rpc randToken backstopSeed
        payRes newSeed currSlot s).newRound.status = "OPEN" ∧
    (closeRound hmacInt hashFn price devW burnA rpc randToken backstopSeed
        payRes newSeed currSlot s).newRound.id
      = roundIdOfNat (s.nextId + 1) ∧
    (closeRound hmacInt hashFn price devW burnA rpc randToken backstopSeed
        payRes newSeed currSlot s).currentRoundId
      = roundIdOfNat (s.nextId + 1) ∧
    (closeRound hmacInt hashFn price devW burnA rpc randToken backstopSeed
        payRes newSeed currSlot s).kvEntropy
      = closeEntropy s rpc randToken ∧
    (r.pot = 0 ∨ totalTickets (roundEntries s) = 0 →
      (closeRound hmacInt hashFn price devW burnA rpc randToken backstopSeed
          payRes newSeed currSlot s).payoutCall = none ∧
      (closeRound hmacInt hashFn price devW burnA rpc randToken backstopSeed
          payRes newSeed currSlot s).winner = none ∧
      (closeRound hmacInt hashFn price devW burnA rpc randToken backstopSeed
          payRes newSeed currSlot s).settledRound.map Round.serverSeedReveal
        = some r.serverSeedReveal) ∧
    (0 < r.pot → 0 < totalTickets (roundEntries s) →
      (closeRound hmacInt hashFn price devW burnA rpc randToken backstopSeed
          payRes newSeed currSlot s).settledRound.map Round.serverSeedReveal
        = some (some (closeSeed s backstopSeed))) := by
  refine ⟨?_, rfl, rfl, rfl, rfl, ?_, ?_⟩
  · unfold closeRound
    simp [hr]
  · intro h
    have hneg : ¬ (0 < r.pot ∧ 0 < totalTickets (roundEntries s)) := by
      rcases h with h | h
      · exact fun hc => by omega
      · exact fun hc => by omega
    unfold closeRound
    simp only [hr, Option.map_some', Option.getD_some, if_neg hneg]
    exact ⟨trivial, trivial, trivial⟩
  · intro hpot htix
    unfold closeRound
    simp only [hr, Option.map_some', Option.getD_some,
      if_pos (And.intro hpot htix)]

/-- Witness for the amended C6: closing the concrete pot-0 state settles
R0001, opens R0002, points the current round at it, stores the resolved
blockhash entropy, and makes no draw and no payout call. -/
theorem round_close_lifecycle_witness :
    lookupRound samplePotZeroState.rounds samplePotZeroState.currentRoundId
      = some { id := "R0001", status := "OPEN", pot := 0,
               serverSeedHash := some "h", serverSeedReveal := none,
               finalizeSlot := 7 } ∧
    ((closeRound (fun _ _ => 0) (fun _ => "HH") 1000000 "dev" "burn"
        (some ("bh", some 9)) "rt" "bs" (Except.ok "ps") "ns" 100
        samplePotZeroState).settledRound.map Round.status
      = some "SETTLED" ∧
     (closeRound (fun _ _ => 0) (fun _ => "HH") 1000000 "dev" "burn"
        (some ("bh", some 9)) "rt" "bs" (Except.ok "ps") "ns" 100
        samplePotZeroState).newRound.status = "OPEN" ∧
     (closeRound (fun _ _ => 0) (fun _ => "HH") 1000000 "dev" "burn"
        (some ("bh", some 9)) "rt" "bs" (Except.ok "ps") "ns" 100
        samplePotZeroState).newRound.id = "R0002" ∧
     (closeRound (fun _ _ => 0) (fun _ => "HH") 1000000 "dev" "burn"
        (some ("bh", some 9)) "rt" "bs" (Except.ok "ps") "ns" 100
        samplePotZeroState).currentRoundId = "R0002" ∧
     (closeRound (fun _ _ => 0) (fun _ => "HH") 1000000 "dev" "burn"
        (some ("bh", some 9)) "rt" "bs" (Except.ok "ps") "ns" 100
        samplePotZeroState).kvEntropy = "bh" ∧
     (closeRound (fun _ _ => 0) (fun _ => "HH") 1000000 "dev" "burn"
        (some ("bh", some 9)) "rt" "bs" (Except.ok "ps") "ns" 100
        samplePotZeroState).payoutCall = none ∧
     (closeRound (fun _ _ => 0) (fun _ => "HH") 1000000 "dev" "burn"
        (some ("bh", some 9)) "rt" "bs" (Except.ok "ps") "ns" 100
        samplePotZeroState).winner = none) := by
  have h := round_close_lifecycle (fun _ _ => 0) (fun _ => "HH") 1000000
    "dev" "burn" (some ("bh", some 9)) "rt" "bs" (Except.ok "ps") "ns" 100
    samplePotZeroState
    { id := "R0001", status := "OPEN", pot := 0,
      serverSeedHash := some "h", serverSeedReveal := none,
      finalizeSlot := 7 }
    (by decide)
  have hz := h.2.2.2.2.2.1 (Or.inl rfl)
  exact ⟨by decide, h.1, h.2.1, h.2.2.1, h.2.2.2.1, by decide, hz.1, hz.2.1⟩

end Treatz
